import Mathlib

/-!
Shallow embedding of the RecordStoreBot inventory/sales core
(src/db.py, src/inventory.py, src/sales.py, src/add_record.py,
src/bulk_import.py, src/reports.py).

The `inventory` sqlite table is modelled as a list of rows; each SQL
statement of the source becomes an explicit Lean function over that list.
Python dictionaries (the rows returned by `search_inventory` and consumed
by the sell flow) are modelled as association lists from string keys to a
tagged value type, so that a `d['missing_key']` lookup failure (KeyError)
is visible as `none`.
-/

namespace RecordStore

/-- One row of the `inventory` table as created by `init_db` (db.py):
columns id, artist_album, genre, style, label, format, condition,
price_gel, quantity (created_at is never read by the modelled code and is
omitted). -/
structure Row where
  id : Int
  artist_album : String
  genre : String
  style : String
  label : String
  format : String
  condition : String
  price_gel : Rat
  quantity : Int
  deriving Repr, DecidableEq

/-- The `inventory` table: a list of rows, in insertion order. -/
abbrev Store := List Row

/-- The first atomic SQL statement of `reduce_inventory_quantity`
(inventory.py): `SELECT quantity FROM inventory WHERE id = ?` followed by
`fetchone()` — the quantity of the first row with the given id, if any. -/
def selectQuantity (s : Store) (item_id : Int) : Option Int :=
  (List.find? (fun r => r.id == item_id) s).map Row.quantity

/-- The second atomic SQL statement of `reduce_inventory_quantity`:
`UPDATE inventory SET quantity = ? WHERE id = ?` — sets the quantity of
every row with the given id (the id column is the primary key, so at most
one row matches in a well-formed database). -/
def updateQuantity (s : Store) (item_id : Int) (q : Int) : Store :=
  List.map (fun r => if r.id == item_id then { r with quantity := q } else r) s

/-- `reduce_inventory_quantity(item_id, amount)` from inventory.py:
rejects `amount <= 0`; reads the current quantity (`fetchone`); fails if
no row; computes `new_qty = quantity - amount`; fails if negative;
otherwise writes `new_qty` back.  Returns the Python boolean result
together with the resulting table state. -/
def reduce_inventory_quantity (s : Store) (item_id : Int) (amount : Int) :
    Bool × Store :=
  if amount ≤ 0 then (false, s)
  else
    match selectQuantity s item_id with
    | none => (false, s)
    | some q =>
      let new_qty := q - amount
      if new_qty < 0 then (false, s)
      else (true, updateQuantity s item_id new_qty)

/-- The local computation a caller of `reduce_inventory_quantity` performs
between its SELECT and its UPDATE: given the value it read (or `none` for
a missing row) and the amount, decide whether to write and what quantity
to write.  `none` means the call returns False without writing. -/
def reduce_step2 (read : Option Int) (amount : Int) : Option Int :=
  if amount ≤ 0 then none
  else
    match read with
    | none => none
    | some q => if q - amount < 0 then none else some (q - amount)

/-- Two concurrent `reduce_inventory_quantity(item_id, amount)` calls under
the interleaving read-1, read-2, write-1, write-2: both SELECTs execute
before either UPDATE commits.  Returns (caller-1 result, caller-2 result,
final table).  Each caller is exactly the SELECT / local-check / UPDATE
sequence of the source, decomposed via `selectQuantity`, `reduce_step2`
and `updateQuantity` (see `reduce_eq_steps`). -/
def two_callers_rrww (s : Store) (item_id : Int) (amount : Int) :
    Bool × Bool × Store :=
  let read1 := selectQuantity s item_id
  let read2 := selectQuantity s item_id
  let (ok1, s1) :=
    match reduce_step2 read1 amount with
    | none => (false, s)
    | some nq => (true, updateQuantity s item_id nq)
  let (ok2, s2) :=
    match reduce_step2 read2 amount with
    | none => (false, s1)
    | some nq => (true, updateQuantity s1 item_id nq)
  (ok1, ok2, s2)

/-- `cleanup_sold_out_items` from db.py:
`DELETE FROM inventory WHERE quantity <= 0`, returning the surviving table
and the number of deleted rows (`cursor.rowcount`). -/
def cleanup_sold_out_items (s : Store) : Store × Nat :=
  (List.filter (fun r => !decide (r.quantity ≤ 0)) s,
   List.countP (fun r => decide (r.quantity ≤ 0)) s)

/-- Quantities of all rows are non-negative. -/
def allNonneg (s : Store) : Prop := ∀ r ∈ s, 0 ≤ r.quantity

instance (s : Store) : Decidable (allNonneg s) :=
  inferInstanceAs (Decidable (∀ r ∈ s, 0 ≤ r.quantity))

/-- Fold a sequence of decrement operations (item id, amount) over the
store, keeping only the resulting table of each call. -/
def applyDecrements (s : Store) (ops : List (Int × Int)) : Store :=
  List.foldl (fun st op => (reduce_inventory_quantity st op.1 op.2).2) s ops

/-! ## Python dictionaries and the search functions -/

/-- A Python value stored in one of the result dictionaries. -/
inductive Value where
  | vInt : Int → Value
  | vStr : String → Value
  | vRat : Rat → Value
  deriving Repr, DecidableEq

/-- A Python dict, as an association list of string keys. -/
abbrev Dict := List (String × Value)

/-- `d[k]` as a total lookup: `none` models a KeyError. -/
def dictGet (d : Dict) (k : String) : Option Value :=
  (List.find? (fun p => p.1 == k) d).map Prod.snd

/-- `d[k]` when the caller needs a string value. -/
def dictGetStr (d : Dict) (k : String) : Option String :=
  match dictGet d k with
  | some (.vStr s) => some s
  | _ => none

/-- The dictionary built for each fetched row by `search_inventory`,
`get_all_inventory` and `get_inventory_by_id` (inventory.py): note the
price is exposed under the key "price_gel". -/
def rowToDict (r : Row) : Dict :=
  [("id", .vInt r.id),
   ("artist_album", .vStr r.artist_album),
   ("genre", .vStr r.genre),
   ("style", .vStr r.style),
   ("label", .vStr r.label),
   ("format", .vStr r.format),
   ("condition", .vStr r.condition),
   ("price_gel", .vRat r.price_gel),
   ("quantity", .vInt r.quantity)]

/-- Is `needle` a leading segment of `hay`? -/
def isPre : List Char → List Char → Bool
  | [], _ => true
  | _ :: _, [] => false
  | a :: as, b :: bs => a == b && isPre as bs

/-- Does `hay` contain `needle` as a contiguous segment? -/
def hasSub (needle : List Char) : List Char → Bool
  | [] => isPre needle []
  | c :: rest => isPre needle (c :: rest) || hasSub needle rest

/-- ASCII lowercasing of one character, as `lower()` does on the ASCII
range (the claims exercise no non-ASCII case folding). -/
def lowerChar (c : Char) : Char :=
  if 65 ≤ c.toNat ∧ c.toNat ≤ 90 then Char.ofNat (c.toNat + 32) else c

/-- Lowercase a character list. -/
def lowerList (l : List Char) : List Char := l.map lowerChar

/-- One `lower(column) LIKE '%' || lower(query) || '%'` test from the
WHERE clause of `search_inventory`: case-insensitive substring match.
(LIKE wildcard characters inside the query itself are not modelled; no
claim exercises them.) -/
def likeMatch (query field : String) : Bool :=
  hasSub (lowerList query.toList) (lowerList field.toList)

/-- The WHERE clause of `search_inventory` (inventory.py): the query
matches artist_album, genre, style or label.  There is no condition on
quantity. -/
def rowMatches (query : String) (r : Row) : Bool :=
  likeMatch query r.artist_album || likeMatch query r.genre ||
  likeMatch query r.style || likeMatch query r.label

/-- `search_inventory(query)` from inventory.py: SELECTs the rows whose
lowered text columns contain the lowered query, and packages each row as a
dict.  The SQL orders by artist_album, which only permutes the result
list; the embedding keeps table order, which is membership-equivalent. -/
def search_inventory (query : String) (s : Store) : List Dict :=
  List.map rowToDict (List.filter (rowMatches query) s)

/-- `get_all_inventory()` from inventory.py: every row of the table (again
there is no condition on quantity). -/
def get_all_inventory (s : Store) : List Dict :=
  List.map rowToDict s

/-- A result dictionary carries a strictly positive quantity.  This is
what the spec asserts of every search result. -/
def dictQuantityPos (d : Dict) : Bool :=
  match dictGet d "quantity" with
  | some (.vInt q) => decide (0 < q)
  | _ => false

/-! ## The sell flow (sales.py) -/

/-- Outcome of `sell_flow_query` (sales.py): either the flow ends with
"no matching records", or the selection keyboard is built, or building a
button raises (unhandled) because a dict key is missing. -/
inductive QueryOutcome where
  | endedNoMatch
  | showSelection (items : List Dict)
  | keyErrorUnhandled
  deriving DecidableEq

/-- `sell_flow_query` (sales.py): searches the inventory; if nothing
matched, replies and ends the conversation; otherwise builds one button
per item from `item['artist_album']`, `item['condition']`,
`item['quantity']` and `item['price_usd']` — the first missing key raises
a KeyError out of the handler. -/
def sell_flow_query (query : String) (s : Store) : QueryOutcome :=
  let found := search_inventory query s
  if found.isEmpty then .endedNoMatch
  else if found.all (fun d =>
      (dictGetStr d "artist_album").isSome &&
      (dictGetStr d "condition").isSome &&
      (dictGet d "quantity").isSome &&
      (dictGet d "price_usd").isSome)
  then .showSelection found
  else .keyErrorUnhandled

/-- Environment of one `sell_flow_price` run: whether each of the two
INSERTs raises when executed.  The two sqlite databases are external
state; a raised sqlite error and a raised KeyError funnel into the same
`except` clause, so a boolean per INSERT captures every storage failure
mode.  (Against the main-db schema created by `init_db`, which has no
`price_usd` column, the first INSERT always raises.) -/
structure SellEnv where
  mainInsertFails : Bool
  reportInsertFails : Bool
  deriving Repr, DecidableEq

/-- One row of a `sales` table as inserted by `sell_flow_price` /
`log_sale_to_report_db`. -/
structure SaleRow where
  date : String
  artist_album : String
  genre : String
  style : String
  label : String
  format : String
  condition : String
  price_usd : Rat
  payment_method : String
  deriving Repr, DecidableEq

/-- The user message sent by `sell_flow_price`, by branch of the source:

* `invalidPrice` — "Invalid price format ..." (re-prompt);
* `negativePrice` — "Price cannot be negative ..." (re-prompt);
* `unavailable` — "Unable to complete sale - item may be out of stock.";
* `processingError` — "Error processing sale: ..." (the `except` clause);
* `success remaining` — the confirmation message, carrying the remaining
  quantity it reports (plus out-of-stock / low-stock warnings derived
  from it). -/
inductive SellReply where
  | invalidPrice
  | negativePrice
  | unavailable
  | processingError
  | success (remaining : Int)
  deriving Repr, DecidableEq

/-- Result of one `sell_flow_price` event: the three stores, the reply
sent (if the handler completed), whether the handler returned
`ConversationHandler.END`, and whether an exception escaped the handler.
`oplog` is the operator-visible local log: `sell_flow_price` contains no
logging or print call, so no branch ever appends to it. -/
structure SellResult where
  store : Store
  sales : List SaleRow
  report : List SaleRow
  oplog : List String
  reply : Option SellReply
  ended : Bool
  raised : Bool
  deriving DecidableEq

/-- The message text of the price step, abstracted by what `float(msg)`
does with it: the literal "ok", a parseable number, or an unparseable
string (ValueError). -/
inductive SellPriceMsg where
  | ok
  | num (x : Rat)
  | unparseable
  deriving Repr, DecidableEq

/-- The price `sell_flow_price` settles on, when it settles on one:
"ok" takes `selected_item['price_usd']` (a key the search dictionaries do
not carry), a non-negative number is taken as entered. -/
def priceFromMsg (msg : SellPriceMsg) (item : Dict) : Option Rat :=
  match msg with
  | .ok =>
    match dictGet item "price_usd" with
    | some (.vRat p) => some p
    | _ => none
  | .num x => if x < 0 then none else some x
  | .unparseable => none

/-- The snapshot row the INSERT argument tuples of `sell_flow_price` build
from the selected item: every descriptive field is read from the dict, so
a missing key is a KeyError (inside the `try`). -/
def saleRowOfItem (item : Dict) (today : String) (price : Rat)
    (pm : String) : Option SaleRow := do
  let a ← dictGetStr item "artist_album"
  let g ← dictGetStr item "genre"
  let st ← dictGetStr item "style"
  let l ← dictGetStr item "label"
  let f ← dictGetStr item "format"
  let c ← dictGetStr item "condition"
  pure ⟨today, a, g, st, l, f, c, price, pm⟩

/-- The `try` block of `sell_flow_price` (sales.py), entered once a final
price `p` is fixed: decrement the inventory by 1; on failure reply
"unavailable" and END with nothing written; on success run the main-db
INSERT, then `log_sale_to_report_db`, then report the remaining quantity
read back via `get_inventory_by_id` (0 if the row is gone).  Any raise
inside the block — KeyError from a dict access or a sqlite error from an
INSERT — lands in the `except` clause: reply "processing error" and END,
keeping whatever had already committed. -/
def sell_process (env : SellEnv) (today : String) (item : Dict)
    (pm : String) (p : Rat) (store : Store) (sales report : List SaleRow) :
    SellResult :=
  match dictGet item "id" with
  | some (.vInt n) =>
    let ok := (reduce_inventory_quantity store n 1).1
    let store1 := (reduce_inventory_quantity store n 1).2
    if ok then
      match saleRowOfItem item today p pm with
      | some srow =>
        if env.mainInsertFails then
          ⟨store1, sales, report, [], some .processingError, true, false⟩
        else if env.reportInsertFails then
          ⟨store1, sales ++ [srow], report, [], some .processingError,
           true, false⟩
        else
          let remaining := (selectQuantity store1 n).getD 0
          ⟨store1, sales ++ [srow], report ++ [srow], [],
           some (.success remaining), true, false⟩
      | none =>
        ⟨store1, sales, report, [], some .processingError, true, false⟩
    else
      ⟨store, sales, report, [], some .unavailable, true, false⟩
  | _ =>
    -- `selected_item['id']` raises inside the try: caught by the except.
    -- (The dictionaries the code builds always carry an integer id.)
    ⟨store, sales, report, [], some .processingError, true, false⟩

/-- `sell_flow_price` (sales.py): the SELL_PRICE message handler.
Unparseable input and negative prices re-prompt in place; "ok" reads
`selected_item['price_usd']` outside the `try`, so a missing key raises
out of the handler (`raised`); with a settled price the sale is processed
by `sell_process`. -/
def sell_flow_price (env : SellEnv) (today : String) (msg : SellPriceMsg)
    (item : Dict) (pm : String) (store : Store)
    (sales report : List SaleRow) : SellResult :=
  match msg with
  | .unparseable =>
    ⟨store, sales, report, [], some .invalidPrice, false, false⟩
  | .num x =>
    if x < 0 then
      ⟨store, sales, report, [], some .negativePrice, false, false⟩
    else sell_process env today item pm x store sales report
  | .ok =>
    match dictGet item "price_usd" with
    | some (.vRat p) => sell_process env today item pm p store sales report
    | _ => ⟨store, sales, report, [], none, false, true⟩

/-! ## Cancellation across the three conversation flows

Each flow is a `ConversationHandler`.  A `/cancel` message is a command:
every per-state handler of every flow filters commands out
(`MessageHandler(filters.TEXT & ~filters.COMMAND)`,
`CallbackQueryHandler`, `filters.Document.ALL`), so a command event is
handled by the flow's `fallbacks` list or not at all.  The fallback lists
in the source are:

* `start_add_flow` (add_record.py): `fallbacks=[]`;
* `start_sell_flow` (sales.py): `CommandHandler("cancel", cancel_sale)`;
* `start_bulk_import_flow` (bulk_import.py):
  `CommandHandler("cancel", cancel_bulk_import)`.

The two cancel handlers only send a text reply and return
`ConversationHandler.END`; they touch no database. -/

/-- Non-terminal states of the Add-Record flow (add_record.py). -/
inductive AddState where
  | search_input | show_results | ask_condition | ask_price | ask_quantity
  deriving Repr, DecidableEq

/-- Non-terminal states of the Sell-Record flow (sales.py). -/
inductive SellState where
  | sell_query | sell_select | sell_payment | sell_price
  deriving Repr, DecidableEq

/-- Non-terminal states of the Bulk-Import flow (bulk_import.py). -/
inductive BulkState where
  | waiting_for_file
  deriving Repr, DecidableEq

/-- Where a flow stands after an event: still in a conversation state, or
ended (`ConversationHandler.END`, the terminal state). -/
inductive StepState (σ : Type) where
  | state (s : σ)
  | ended
  deriving Repr, DecidableEq

/-- The shared persistent stores a flow handler could touch. -/
structure FlowEffects where
  store : Store
  sales : List SaleRow
  report : List SaleRow
  deriving DecidableEq

/-- `cancel_sale` (sales.py): replies "Sale cancelled." and returns END;
no database access. -/
def cancel_sale (fx : FlowEffects) : StepState SellState × FlowEffects :=
  (.ended, fx)

/-- `cancel_bulk_import` (bulk_import.py): replies and returns END; no
database access. -/
def cancel_bulk_import (fx : FlowEffects) :
    StepState BulkState × FlowEffects :=
  (.ended, fx)

/-- A command event arriving while the Add-Record flow sits in state `st`:
the per-state handlers exclude commands and `fallbacks=[]`, so no handler
runs — the conversation state and all stores are untouched. -/
def add_on_command (st : AddState) (_cmd : String) (fx : FlowEffects) :
    StepState AddState × FlowEffects :=
  (.state st, fx)

/-- A command event arriving while the Sell-Record flow sits in state
`st`: only the "cancel" fallback matches a command; any other command is
unhandled. -/
def sell_on_command (st : SellState) (cmd : String) (fx : FlowEffects) :
    StepState SellState × FlowEffects :=
  if cmd == "cancel" then cancel_sale fx else (.state st, fx)

/-- A command event arriving while the Bulk-Import flow sits in state
`st`: only the "cancel" fallback matches a command. -/
def bulk_on_command (st : BulkState) (cmd : String) (fx : FlowEffects) :
    StepState BulkState × FlowEffects :=
  if cmd == "cancel" then cancel_bulk_import fx else (.state st, fx)

/-! ## Bulk import (bulk_import.py) -/

/-- Natural number denoted by a digit run. -/
def digitsToNat (l : List Char) : Nat :=
  List.foldl (fun n c => n * 10 + (c.toNat - 48)) 0 l

/-- All characters are decimal digits. -/
def allDigits (l : List Char) : Bool := l.all Char.isDigit

/-- Whitespace for the purpose of `float()`'s tolerance of surrounding
blanks. -/
def isSpaceChar (c : Char) : Bool :=
  c == ' ' || c == '\t' || c == '\n' || c == '\r'

/-- Strip surrounding whitespace from a character list. -/
def trimList (l : List Char) : List Char :=
  ((l.dropWhile isSpaceChar).reverse.dropWhile isSpaceChar).reverse

/-- `float(s)` from Python, on the plain decimal literals the modelled
code feeds it: optional surrounding whitespace, optional sign, digits
with at most one decimal point, at least one digit.  (Exponent, inf and
nan forms are not modelled; no claim exercises them.)  `none` models the
ValueError. -/
def parseFloat (s : String) : Option Rat :=
  let cs := trimList s.toList
  let (sign, body) : Int × List Char :=
    match cs with
    | '+' :: r => (1, r)
    | '-' :: r => (-1, r)
    | r => (1, r)
  let intPart := body.takeWhile (fun c => c ≠ '.')
  let rest := body.dropWhile (fun c => c ≠ '.')
  match rest with
  | [] =>
    if intPart ≠ [] ∧ allDigits intPart then
      some (mkRat (sign * (digitsToNat intPart : Int)) 1)
    else none
  | _ :: frac =>
    if (intPart ≠ [] ∨ frac ≠ []) ∧ allDigits intPart ∧ allDigits frac then
      some (mkRat
        (sign * ((digitsToNat intPart * 10 ^ frac.length
          + digitsToNat frac : Nat) : Int))
        (10 ^ frac.length))
    else none

/-- Modelled from the spec: `quick_add_from_discogs` is imported by
bulk_import.py from add_record, but no definition exists under src/.  Per
the spec's Bulk-Import flow, each valid (title, price) pair triggers a
best-effort single-item catalog lookup and insert; the record the model
keeps for a successful call is the (title, price) pair it imported. -/
def quick_add_from_discogs (title : String) (price : Rat) : String × Rat :=
  (title, price)

/-- The loop of `bulk_import_from_excel` (bulk_import.py) over the flat
first-column cell list, two cells per record: a missing title or missing
price cell skips the pair (`continue`), an unparseable price skips the
pair, and an exception from `quick_add_from_discogs` (modelled by the
`lookupOk` oracle returning false) is caught, printed and skipped.  The
`added` counter counts the successful imports. -/
def bulkGo (lookupOk : String → Bool) :
    List (Option String) → Nat × List (String × Rat)
  | title :: price :: rest =>
    let tail := bulkGo lookupOk rest
    match title with
    | none => tail
    | some t =>
      match price with
      | none => tail
      | some pstr =>
        match parseFloat pstr with
        | none => tail
        | some pv =>
          if lookupOk t then
            (tail.1 + 1, quick_add_from_discogs t pv :: tail.2)
          else tail
  | _ => (0, [])

/-- `bulk_import_from_excel(path)` (bulk_import.py): the workbook is
external input, modelled as the flat list of first-column cells; returns
the count of imported records together with what was imported. -/
def bulk_import_from_excel (lookupOk : String → Bool)
    (rows : List (Option String)) : Nat × List (String × Rat) :=
  bulkGo lookupOk rows

/-! ## Schema / column names (db.py, add_record.py) -/

/-- The columns of the `inventory` table created by `init_db` (db.py). -/
def inventory_columns : List String :=
  ["id", "artist_album", "genre", "style", "label", "format",
   "condition", "price_gel", "quantity", "created_at"]

/-- The column list named by the INSERT of `save_to_inventory`
(add_record.py): note `price_usd`. -/
def save_to_inventory_columns : List String :=
  ["artist_album", "genre", "style", "label", "format", "condition",
   "price_usd", "quantity"]

/-- sqlite accepts an INSERT only when every named column exists in the
table's schema. -/
def insertColumnsOk (schema target : List String) : Bool :=
  target.all (fun c => schema.contains c)

/-- Whether the `save_to_inventory` INSERT is accepted against the
`inventory` schema created by `init_db`. -/
def save_to_inventory_ok : Bool :=
  insertColumnsOk inventory_columns save_to_inventory_columns

/-! ## Concrete fixtures for counterexamples and witnesses -/

/-- A row with stock: id 1, quantity 5. -/
def rowStock : Row :=
  ⟨1, "Pink Floyd - The Wall", "Rock", "Prog", "Harvest", "LP", "nm",
   40, 5⟩

/-- A row with exactly one unit left: id 1, quantity 1. -/
def rowLast : Row :=
  ⟨1, "Pink Floyd - The Wall", "Rock", "Prog", "Harvest", "LP", "nm",
   40, 1⟩

/-- A sold-out row: id 1, quantity 0, artist_album "abc". -/
def rowZero : Row :=
  ⟨1, "abc", "Rock", "Prog", "Harvest", "LP", "nm", 10, 0⟩

/-- A row with two units: id 1, quantity 2. -/
def rowTwo : Row :=
  ⟨1, "Pink Floyd - The Wall", "Rock", "Prog", "Harvest", "LP", "nm",
   40, 2⟩

/-- The cell column of the bulk-import scenario of the spec: pairs
("Album A","10.00"), ("Album B","not-a-number"), (None,"5.00"),
("Album C","15.00") flattened to alternating title and price cells. -/
def scenarioCells : List (Option String) :=
  [some "Album A", some "10.00",
   some "Album B", some "not-a-number",
   none, some "5.00",
   some "Album C", some "15.00"]

/-! ## Helper lemmas -/

/-- `reduce_inventory_quantity` is exactly its SELECT (`selectQuantity`),
the local decision (`reduce_step2`) and, when the decision says so, its
UPDATE (`updateQuantity`): the decomposition used by the concurrent
model `two_callers_rrww`. -/
theorem reduce_eq_steps (s : Store) (i a : Int) :
    reduce_inventory_quantity s i a =
      match reduce_step2 (selectQuantity s i) a with
      | none => (false, s)
      | some nq => (true, updateQuantity s i nq) := by
  unfold reduce_inventory_quantity reduce_step2
  by_cases h : a ≤ 0
  · simp [h]
  · simp only [h, if_false]
    cases selectQuantity s i with
    | none => rfl
    | some q =>
      by_cases h2 : q - a < 0
      · simp [h2]
      · simp [h2]

/-- Success case of the decrement: with a positive amount not above the
quantity the SELECT read, the call returns True and performs its
UPDATE. -/
theorem reduce_success (s : Store) (i a q : Int)
    (hq : selectQuantity s i = some q) (h0 : 0 < a) (ha : a ≤ q) :
    reduce_inventory_quantity s i a = (true, updateQuantity s i (q - a)) := by
  have h1 : ¬ a ≤ 0 := by omega
  have h2 : ¬ (q - a < 0) := by omega
  unfold reduce_inventory_quantity
  rw [hq]
  simp [h1, h2]

/-- Writing a non-negative quantity preserves non-negativity of every
row. -/
theorem updateQuantity_nonneg (s : Store) (i nq : Int)
    (h : allNonneg s) (hnq : 0 ≤ nq) : allNonneg (updateQuantity s i nq) := by
  intro r hr
  unfold updateQuantity at hr
  rcases List.mem_map.mp hr with ⟨r0, hr0, heq⟩
  by_cases hid : (r0.id == i) = true
  · rw [← heq]
    simpa [hid] using hnq
  · rw [← heq]
    simp only [hid, if_false]
    exact h r0 hr0

/-- One decrement call keeps all quantities non-negative. -/
theorem reduce_nonneg (s : Store) (i a : Int) (h : allNonneg s) :
    allNonneg (reduce_inventory_quantity s i a).2 := by
  unfold reduce_inventory_quantity
  by_cases h0 : a ≤ 0
  · simpa [h0] using h
  · simp only [h0, if_false]
    cases hq : selectQuantity s i with
    | none => simpa using h
    | some q =>
      by_cases hneg : q - a < 0
      · simpa [hneg] using h
      · have : 0 ≤ q - a := by omega
        simpa [hneg] using updateQuantity_nonneg s i (q - a) h this

/-- With pairwise-distinct ids (the id column is the primary key), the
SELECT of the decrement reads the quantity of the unique row with the
given id. -/
theorem selectQuantity_of_nodup (s : Store) (i : Int) (r : Row)
    (hnd : (List.map Row.id s).Nodup) (hr : r ∈ s) (hid : r.id = i) :
    selectQuantity s i = some r.quantity := by
  induction s with
  | nil => cases hr
  | cons hd tl ih =>
    rw [List.map_cons, List.nodup_cons] at hnd
    rcases List.mem_cons.mp hr with hhd | htl
    · subst hhd
      unfold selectQuantity
      rw [List.find?_cons_of_pos _ (by simp [hid])]
      rfl
    · by_cases hh : hd.id = i
      · exact absurd (by rw [hh, ← hid]; exact List.mem_map_of_mem Row.id htl)
          hnd.1
      · unfold selectQuantity
        rw [List.find?_cons_of_neg _ (by simp [hh])]
        exact ih hnd.2 htl

/-- Once `sell_flow_price` settles on a final price, it runs the sale
processing block with that price. -/
theorem sell_flow_price_eq_process (env : SellEnv) (today : String)
    (msg : SellPriceMsg) (item : Dict) (pm : String) (store : Store)
    (sales report : List SaleRow) (p : Rat)
    (hp : priceFromMsg msg item = some p) :
    sell_flow_price env today msg item pm store sales report =
      sell_process env today item pm p store sales report := by
  cases msg with
  | unparseable => simp [priceFromMsg] at hp
  | num x =>
    unfold priceFromMsg at hp
    by_cases hx : x < 0
    · simp [hx] at hp
    · simp only [hx, if_false, Option.some.injEq] at hp
      subst hp
      unfold sell_flow_price
      simp [hx]
  | ok =>
    unfold priceFromMsg at hp
    unfold sell_flow_price
    cases hpu : dictGet item "price_usd" with
    | none => rw [hpu] at hp; simp at hp
    | some v =>
      cases v with
      | vInt m => rw [hpu] at hp; simp at hp
      | vStr t => rw [hpu] at hp; simp at hp
      | vRat q => rw [hpu] at hp
                  simp only [Option.some.injEq] at hp
                  subst hp
                  rfl

/-! ## The claims -/

/-- C1: the spec requires the quantity check and write of the decrement to
be one atomic conditional update, with exactly one of two concurrent
last-unit callers succeeding.  The code (inventory.py,
`reduce_inventory_quantity`) instead issues an application-level SELECT
followed by an UPDATE; under the interleaving read-read-write-write both
callers of `decrement(1, by 1)` on a quantity-1 item report success,
while serial execution gives one success and one failure. -/
theorem c1_decrement_race_code_bug :
    two_callers_rrww [rowLast] 1 1 =
      (true, true, [{ rowLast with quantity := 0 }]) ∧
    (reduce_inventory_quantity [rowLast] 1 1).1 = true ∧
    (reduce_inventory_quantity (reduce_inventory_quantity [rowLast] 1 1).2
      1 1).1 = false := by
  decide

/-- C2 as stated is wrong for non-positive amounts: with the row present
and quantity 5 ≥ 0, a decrement by 0 must — per the claim — succeed, but
the code returns False (first guard `amount <= 0`). -/
theorem c2_nonpositive_amount_cex :
    reduce_inventory_quantity [rowStock] 1 0 = (false, [rowStock]) ∧
    selectQuantity [rowStock] 1 = some 5 ∧ ¬ ((5 : Int) < 0) := by
  decide

/-- C2 (amended): the decrement returns False and leaves the table
unchanged when the requested amount is non-positive, when no row with the
id exists, or when the current quantity is below the amount (rejected,
not clamped); otherwise it returns True and rewrites exactly the rows
with that id — under the primary-key uniqueness of ids, the one such row
— to a quantity lowered by exactly the amount, all other rows and fields
untouched. -/
theorem c2_decrement_characterization (s : Store) (i a : Int)
    (hnd : (List.map Row.id s).Nodup) :
    (a ≤ 0 → reduce_inventory_quantity s i a = (false, s)) ∧
    (selectQuantity s i = none →
      reduce_inventory_quantity s i a = (false, s)) ∧
    (∀ q, selectQuantity s i = some q → q < a →
      reduce_inventory_quantity s i a = (false, s)) ∧
    (∀ q, selectQuantity s i = some q → 0 < a → a ≤ q →
      (reduce_inventory_quantity s i a).1 = true ∧
      (reduce_inventory_quantity s i a).2 =
        List.map (fun r => if r.id == i then
          { r with quantity := r.quantity - a } else r) s ∧
      ∀ r ∈ s, r.id = i → r.quantity = q) := by
  refine ⟨fun h0 => ?_, fun hn => ?_, fun q hq hlt => ?_, fun q hq h0 ha => ?_⟩
  · unfold reduce_inventory_quantity
    simp [h0]
  · by_cases h0 : a ≤ 0
    · unfold reduce_inventory_quantity
      simp [h0]
    · unfold reduce_inventory_quantity
      rw [hn]
      simp [h0]
  · by_cases h0 : a ≤ 0
    · unfold reduce_inventory_quantity
      simp [h0]
    · have h2 : q - a < 0 := by omega
      unfold reduce_inventory_quantity
      rw [hq]
      simp [h0, h2]
  · have hqall : ∀ r ∈ s, r.id = i → r.quantity = q := by
      intro r hr hid
      have := selectQuantity_of_nodup s i r hnd hr hid
      rw [hq] at this
      exact (Option.some.injEq _ _ ▸ this).symm
    have hred := reduce_success s i a q hq h0 ha
    refine ⟨by rw [hred], ?_, hqall⟩
    rw [hred]
    unfold updateQuantity
    apply List.map_congr_left
    intro r hr
    by_cases hid : (r.id == i) = true
    · have : r.quantity = q := hqall r hr (by simpa using hid)
      simp [hid, this]
    · simp [hid]

/-- Witness for C2 at the store [rowStock] (id 1, quantity 5), amount 2:
the hypotheses hold and the success bullet applies. -/
theorem c2_decrement_characterization_witness :
    (List.map Row.id [rowStock]).Nodup ∧
    selectQuantity [rowStock] 1 = some 5 ∧
    ((reduce_inventory_quantity [rowStock] 1 2).1 = true ∧
     (reduce_inventory_quantity [rowStock] 1 2).2 =
       List.map (fun r => if r.id == 1 then
         { r with quantity := r.quantity - 2 } else r) [rowStock] ∧
     ∀ r ∈ [rowStock], r.id = 1 → r.quantity = 5) :=
  ⟨by decide, by decide,
   (c2_decrement_characterization [rowStock] 1 2 (by decide)).2.2.2 5
     (by decide) (by decide) (by decide)⟩

/-- C3: starting from any table whose quantities are all non-negative,
any finite sequence of decrement calls — arbitrary ids and amounts —
leaves every quantity non-negative: failed calls return the table
unchanged and successful calls only write `quantity - amount` after
checking it is not negative.  Quantification over all operation lists
covers every intermediate step (each prefix is itself such a list). -/
theorem c3_quantity_nonneg_invariant (s : Store) (ops : List (Int × Int))
    (h : allNonneg s) : allNonneg (applyDecrements s ops) := by
  induction ops generalizing s with
  | nil => exact h
  | cons op rest ih =>
    have hstep : applyDecrements s (op :: rest) =
        applyDecrements (reduce_inventory_quantity s op.1 op.2).2 rest := rfl
    rw [hstep]
    exact ih _ (reduce_nonneg s op.1 op.2 h)

/-- Witness for C3: a concrete run (a success, an over-large failure and
another success on id 1, plus a miss on id 7) keeps quantities ≥ 0. -/
theorem c3_quantity_nonneg_invariant_witness :
    allNonneg [rowStock] ∧
    allNonneg (applyDecrements [rowStock] [(1, 2), (1, 99), (7, 1), (1, 3)]) :=
  ⟨by decide,
   c3_quantity_nonneg_invariant [rowStock] [(1, 2), (1, 99), (7, 1), (1, 3)]
     (by decide)⟩

/-- C4 as stated is wrong: `search_inventory` and `get_all_inventory`
(inventory.py) have no quantity condition, so the matching sold-out row
`rowZero` (quantity 0) is returned by both the search and the full
listing. -/
theorem c4_zero_quantity_listed_cex :
    search_inventory "abc" [rowZero] = [rowToDict rowZero] ∧
    (search_inventory "abc" [rowZero]).all dictQuantityPos = false ∧
    get_all_inventory [rowZero] = [rowToDict rowZero] ∧
    (get_all_inventory [rowZero]).all dictQuantityPos = false ∧
    dictGet (rowToDict rowZero) "quantity" = some (.vInt 0) := by
  decide

/-- C4 (amended): search membership is exactly the case-insensitive
substring match on artist_album, genre, style or label, and the full
listing returns every row — in both cases regardless of quantity, so a
zero-quantity row still appears and a sell-flow search after stock is
exhausted still finds it (only the separate `cleanup_sold_out_items`
removes such rows). -/
theorem c4_search_membership (query : String) (s : Store) (d : Dict) :
    (d ∈ search_inventory query s ↔
      ∃ r, r ∈ s ∧ rowMatches query r = true ∧ rowToDict r = d) ∧
    (d ∈ get_all_inventory s ↔ ∃ r, r ∈ s ∧ rowToDict r = d) := by
  constructor
  · unfold search_inventory
    simp only [List.mem_map, List.mem_filter]
    constructor
    · rintro ⟨r, ⟨hr, hm⟩, heq⟩
      exact ⟨r, hr, hm, heq⟩
    · rintro ⟨r, hr, hm, heq⟩
      exact ⟨r, ⟨hr, hm⟩, heq⟩
  · unfold get_all_inventory
    simp only [List.mem_map]

/-- C5 as stated is wrong: a successful decrement that brings the
quantity to 0 does not delete the row — `reduce_inventory_quantity` only
UPDATEs, and the table still holds the row with quantity 0. -/
theorem c5_row_not_deleted_cex :
    (reduce_inventory_quantity [rowLast] 1 1).1 = true ∧
    (reduce_inventory_quantity [rowLast] 1 1).2 =
      [{ rowLast with quantity := 0 }] := by
  decide

/-- C5 (amended): a successful decrement by the full current quantity
returns True and keeps the row, now with quantity 0 (same number of
rows); rows with quantity ≤ 0 are removed only by the separate
`cleanup_sold_out_items` operation of db.py, after which no row with the
decremented id remains. -/
theorem c5_zero_quantity_row_kept (s : Store) (i a : Int)
    (hq : selectQuantity s i = some a) (h0 : 0 < a) :
    (reduce_inventory_quantity s i a).1 = true ∧
    (reduce_inventory_quantity s i a).2.length = s.length ∧
    (∃ r ∈ (reduce_inventory_quantity s i a).2, r.id = i ∧ r.quantity = 0) ∧
    (∀ r ∈ (cleanup_sold_out_items (reduce_inventory_quantity s i a).2).1,
      r.id ≠ i) := by
  have hred : reduce_inventory_quantity s i a = (true, updateQuantity s i 0) := by
    rw [reduce_success s i a a hq h0 (le_refl a)]
    simp
  rw [hred]
  refine ⟨rfl, ?_, ?_, ?_⟩
  · unfold updateQuantity
    exact List.length_map s _
  · unfold selectQuantity at hq
    rcases Option.map_eq_some'.mp hq with ⟨r0, hfind, hqty⟩
    have hr0 : r0 ∈ s := List.mem_of_find?_eq_some hfind
    have hid : (r0.id == i) = true := by
      have := List.find?_some hfind
      simpa using this
    refine ⟨{ r0 with quantity := 0 }, ?_, by simpa using hid, rfl⟩
    unfold updateQuantity
    have := List.mem_map_of_mem
      (fun r => if r.id == i then { r with quantity := 0 } else r) hr0
    simpa [hid] using this
  · intro r hr hri
    unfold cleanup_sold_out_items at hr
    have hpos := List.of_mem_filter hr
    have hmem := List.mem_of_mem_filter hr
    unfold updateQuantity at hmem
    rcases List.mem_map.mp hmem with ⟨r0, _, heq⟩
    by_cases hid0 : (r0.id == i) = true
    · rw [← heq] at hpos
      simp [hid0] at hpos
    · rw [← heq, if_neg hid0] at hri
      exact hid0 (by simp [hri])

/-- Witness for C5 at the store [rowTwo] (id 1, quantity 2), amount 2. -/
theorem c5_zero_quantity_row_kept_witness :
    selectQuantity [rowTwo] 1 = some 2 ∧ (0 : Int) < 2 ∧
    ((reduce_inventory_quantity [rowTwo] 1 2).1 = true ∧
     (reduce_inventory_quantity [rowTwo] 1 2).2.length = [rowTwo].length ∧
     (∃ r ∈ (reduce_inventory_quantity [rowTwo] 1 2).2,
        r.id = 1 ∧ r.quantity = 0) ∧
     (∀ r ∈ (cleanup_sold_out_items
        (reduce_inventory_quantity [rowTwo] 1 2).2).1, r.id ≠ 1)) :=
  ⟨by decide, by decide,
   c5_zero_quantity_row_kept [rowTwo] 1 2 (by decide) (by decide)⟩

/-- C6: in the SELL_PRICE state, whenever a final price has been settled
and the decrement of 1 unit fails (row missing or quantity below 1),
`sell_flow_price` replies that the item is unavailable and returns
`ConversationHandler.END` with the inventory, the main sales table and
the reporting table all untouched — no SaleRecord is written anywhere. -/
theorem c6_failed_decrement_no_sale (env : SellEnv) (today : String)
    (msg : SellPriceMsg) (item : Dict) (pm : String) (store : Store)
    (sales report : List SaleRow) (p : Rat) (n : Int)
    (hp : priceFromMsg msg item = some p)
    (hid : dictGet item "id" = some (.vInt n))
    (hfail : (reduce_inventory_quantity store n 1).1 = false) :
    sell_flow_price env today msg item pm store sales report =
      ⟨store, sales, report, [], some .unavailable, true, false⟩ := by
  rw [sell_flow_price_eq_process env today msg item pm store sales report p hp]
  unfold sell_process
  rw [hid]
  simp [hfail]

/-- Witness for C6: item id 1 with quantity 0 in stock, price entered as
a number. -/
theorem c6_failed_decrement_no_sale_witness :
    priceFromMsg (.num 10) (rowToDict rowZero) = some 10 ∧
    dictGet (rowToDict rowZero) "id" = some (.vInt 1) ∧
    (reduce_inventory_quantity [rowZero] 1 1).1 = false ∧
    sell_flow_price ⟨false, false⟩ "2026-01-01" (.num 10)
        (rowToDict rowZero) "cash" [rowZero] [] [] =
      ⟨[rowZero], [], [], [], some .unavailable, true, false⟩ :=
  ⟨by decide, by decide, by decide,
   c6_failed_decrement_no_sale ⟨false, false⟩ "2026-01-01" (.num 10)
     (rowToDict rowZero) "cash" [rowZero] [] [] 10 1
     (by decide) (by decide) (by decide)⟩

/-- C7 as stated is wrong: with the decrement and the main-db INSERT
succeeding and the reporting INSERT raising, the exception lands in the
blanket `except` of `sell_flow_price` — the user is sent the
"Error processing sale" message, not a success message, and nothing is
logged locally (the handler contains no logging call). -/
theorem c7_report_failure_user_error_cex :
    (sell_flow_price ⟨false, true⟩ "2026-01-01" (.num 10) (rowToDict rowTwo)
        "cash" [rowTwo] [] []).reply = some .processingError ∧
    (sell_flow_price ⟨false, true⟩ "2026-01-01" (.num 10) (rowToDict rowTwo)
        "cash" [rowTwo] [] []).oplog = [] ∧
    (sell_flow_price ⟨false, true⟩ "2026-01-01" (.num 10) (rowToDict rowTwo)
        "cash" [rowTwo] [] []).ended = true := by
  decide

/-- C7 (amended): if the reporting write fails after the decrement and
the primary sales-table write succeeded, the exception is caught by the
flow's blanket handler: the user is shown the "Error processing sale"
message (not success), no local operator log is written, the flow ends,
and the already-committed decrement and primary sale row persist while
the reporting table is unchanged. -/
theorem c7_report_failure_behavior (env : SellEnv) (today : String)
    (msg : SellPriceMsg) (item : Dict) (pm : String) (store : Store)
    (sales report : List SaleRow) (p : Rat) (n : Int) (srow : SaleRow)
    (hp : priceFromMsg msg item = some p)
    (hid : dictGet item "id" = some (.vInt n))
    (hok : (reduce_inventory_quantity store n 1).1 = true)
    (hrow : saleRowOfItem item today p pm = some srow)
    (hm : env.mainInsertFails = false)
    (hr : env.reportInsertFails = true) :
    sell_flow_price env today msg item pm store sales report =
      ⟨(reduce_inventory_quantity store n 1).2, sales ++ [srow], report,
       [], some .processingError, true, false⟩ := by
  rw [sell_flow_price_eq_process env today msg item pm store sales report p hp]
  unfold sell_process
  rw [hid]
  simp [hok, hrow, hm, hr]

/-- Witness for C7: two units in stock, price entered as a number, main
INSERT succeeds, reporting INSERT fails. -/
theorem c7_report_failure_behavior_witness :
    priceFromMsg (.num 10) (rowToDict rowTwo) = some 10 ∧
    dictGet (rowToDict rowTwo) "id" = some (.vInt 1) ∧
    (reduce_inventory_quantity [rowTwo] 1 1).1 = true ∧
    saleRowOfItem (rowToDict rowTwo) "2026-01-01" 10 "cash" =
      some ⟨"2026-01-01", "Pink Floyd - The Wall", "Rock", "Prog",
            "Harvest", "LP", "nm", 10, "cash"⟩ ∧
    sell_flow_price ⟨false, true⟩ "2026-01-01" (.num 10) (rowToDict rowTwo)
        "cash" [rowTwo] [] [] =
      ⟨(reduce_inventory_quantity [rowTwo] 1 1).2,
       [] ++ [⟨"2026-01-01", "Pink Floyd - The Wall", "Rock", "Prog",
               "Harvest", "LP", "nm", 10, "cash"⟩], [],
       [], some .processingError, true, false⟩ :=
  ⟨by decide, by decide, by decide, by decide,
   c7_report_failure_behavior ⟨false, true⟩ "2026-01-01" (.num 10)
     (rowToDict rowTwo) "cash" [rowTwo] [] [] 10 1
     ⟨"2026-01-01", "Pink Floyd - The Wall", "Rock", "Prog", "Harvest",
      "LP", "nm", 10, "cash"⟩
     (by decide) (by decide) (by decide) (by decide) rfl rfl⟩

/-- C8 as stated is wrong for the Add-Record flow: `start_add_flow`
(add_record.py) registers `fallbacks=[]` and every state handler filters
commands out, so a /cancel command in the `search_input` state is simply
ignored — the flow stays in its state instead of transitioning to
Terminal. -/
theorem c8_add_flow_ignores_cancel_cex :
    add_on_command .search_input "cancel" ⟨[rowLast], [], []⟩ =
      (.state .search_input, ⟨[rowLast], [], []⟩) ∧
    StepState.state AddState.search_input ≠
      (StepState.ended : StepState AddState) := by
  exact ⟨rfl, by decide⟩

/-- C8 (amended): in the Sell-Record and Bulk-Import flows, every
non-terminal state accepts /cancel and unconditionally moves to Terminal
with no effect on the inventory, sales or reporting stores; the
Add-Record flow has no cancel fallback, so a /cancel (like any command)
leaves its state and all stores unchanged — in no flow does cancellation
decrement inventory or write a sale. -/
theorem c8_cancel_behavior :
    (∀ (st : SellState) (fx : FlowEffects),
      sell_on_command st "cancel" fx = (.ended, fx)) ∧
    (∀ (st : BulkState) (fx : FlowEffects),
      bulk_on_command st "cancel" fx = (.ended, fx)) ∧
    (∀ (st : AddState) (cmd : String) (fx : FlowEffects),
      add_on_command st cmd fx = (.state st, fx)) :=
  ⟨fun _ _ => rfl, fun _ _ => rfl, fun _ _ _ => rfl⟩

/-- C9: on the spec's scenario cells — pairs ("Album A","10.00"),
("Album B","not-a-number"), (None,"5.00"), ("Album C","15.00") — the
bulk-import loop imports exactly Album A and Album C and returns the
count 2: the unparseable price and the missing title are each skipped
without aborting the batch.  (`quick_add_from_discogs` is modelled from
the spec, every lookup succeeding.) -/
theorem c9_bulk_import_scenario :
    bulk_import_from_excel (fun _ => true) scenarioCells =
      (2, [("Album A", 10), ("Album C", 15)]) := by
  decide

/-- C10: the price column of the inventory schema and of the search
dictionaries is "price_gel", while the Add-Record INSERT targets
"price_usd" (a column absent from the schema, so sqlite rejects every
such insert) and the sell flow reads the key "price_usd" from each search
result — so whenever a sell-flow search returns at least one item,
building the selection keyboard raises a KeyError. -/
theorem c10_price_field_mismatch :
    ("price_gel" ∈ inventory_columns ∧ "price_usd" ∉ inventory_columns) ∧
    (∀ r : Row,
      dictGet (rowToDict r) "price_gel" = some (.vRat r.price_gel) ∧
      dictGet (rowToDict r) "price_usd" = none) ∧
    (∀ (query : String) (s : Store), search_inventory query s ≠ [] →
      sell_flow_query query s = .keyErrorUnhandled) ∧
    ("price_usd" ∈ save_to_inventory_columns ∧
      save_to_inventory_ok = false) := by
  refine ⟨by decide, fun r => ⟨rfl, rfl⟩, ?_, by decide⟩
  intro query s hne
  unfold sell_flow_query
  have hie : (search_inventory query s).isEmpty = false := by
    cases hf : search_inventory query s with
    | nil => exact absurd hf hne
    | cons d0 rest => rfl
  have hall : ∀ d ∈ search_inventory query s,
      (dictGet d "price_usd").isSome = false := by
    intro d hd
    unfold search_inventory at hd
    rcases List.mem_map.mp hd with ⟨r, _, heq⟩
    rw [← heq]
    rfl
  have hfa : (search_inventory query s).all (fun d =>
      (dictGetStr d "artist_album").isSome &&
      (dictGetStr d "condition").isSome &&
      (dictGet d "quantity").isSome &&
      (dictGet d "price_usd").isSome) = false := by
    cases hf : search_inventory query s with
    | nil => exact absurd hf hne
    | cons d0 rest =>
      have h0 : (dictGet d0 "price_usd").isSome = false :=
        hall d0 (by rw [hf]; exact List.mem_cons_self d0 rest)
      simp [List.all_cons, h0]
  simp [hie, hfa]

/-- Witness for C10: the sold-out row "abc" matches the query "abc", so
the sell flow's selection building fails, and the Add-Record INSERT is
rejected by the schema. -/
theorem c10_price_field_mismatch_witness :
    search_inventory "abc" [rowZero] ≠ [] ∧
    sell_flow_query "abc" [rowZero] = .keyErrorUnhandled ∧
    save_to_inventory_ok = false :=
  ⟨by decide,
   c10_price_field_mismatch.2.2.1 "abc" [rowZero] (by decide),
   c10_price_field_mismatch.2.2.2.2⟩

end RecordStore
